import Mathlib

set_option maxHeartbeats 1000000

/-! Shallow embedding of the browser client of the aura influencer studio.
It covers the resilient HTTP client (src/services/http-client.ts together
with the error taxonomy and configuration shipped alongside it), the SSE
connection manager (src/services/sse.ts with src/services/config.ts), and
the discard / reset and research-plan editing logic of the workflow
components (src/components/orchestrator/OrchestratorFlow.tsx and
src/components/creation/CreationFlow.tsx).  Asynchronous effects are made
explicit: fetch attempts are driven by a list that tells each attempt how
the network settled, timers and transport errors of the event stream are
explicit operations of a step function, and browser state (localStorage,
open EventSource connections, dispatched logout events) is threaded as
data so theorems can speak about it. -/

/-! ## Error taxonomy (src/services/errors.ts) -/

/-- Header list of an HTTP request (the `headers` of RequestOptions). -/
abbrev HeaderMap := List (String × String)

/-- Field-level validation messages (the `errors` payload of a 422 body). -/
abbrev FieldErrors := List (String × List String)

/-- The typed error classes of src/services/errors.ts, identified by which
class the thrown object was constructed from.  `apiError` is the base
class used by parseErrorResponse's default branch. -/
inductive ErrKind where
  | networkError
  | timeoutError
  | unauthorizedError
  | forbiddenError
  | notFoundError
  | validationError
  | rateLimitError
  | serverError
  | abortError
  | apiError
deriving DecidableEq, Repr

/-- The ApiError shape of src/services/errors.ts: the class constructed,
the statusCode it carries (0 for transport-level errors), and the
retryAfter / field-error payloads of RateLimitError and ValidationError. -/
structure ApiError where
  kind : ErrKind
  statusCode : Int
  retryAfter : Option Int := none
  fieldErrors : FieldErrors := []
deriving DecidableEq, Repr

/-- parseErrorResponse (src/services/errors.ts lines 357-394): map the
status of a non-success response to a typed error.  The human-readable
message is not modelled; the Retry-After header and the parsed `errors`
map of the body are passed in.  Each class constructor stores the status
it stands for (UnauthorizedError stores 401, and so on), which in its
branch equals the response status; the ServerError and default branches
store the response status directly. -/
def parseErrorResponse (statusCode : Int) (retryAfterHeader : Option Int)
    (errors : FieldErrors) : ApiError :=
  if statusCode = 401 then { kind := .unauthorizedError, statusCode := 401 }
  else if statusCode = 403 then { kind := .forbiddenError, statusCode := 403 }
  else if statusCode = 404 then { kind := .notFoundError, statusCode := 404 }
  else if statusCode = 422 then
    { kind := .validationError, statusCode := 422, fieldErrors := errors }
  else if statusCode = 429 then
    { kind := .rateLimitError, statusCode := 429, retryAfter := retryAfterHeader }
  else if statusCode = 502 ∨ statusCode = 503 ∨ statusCode = 504 ∨ statusCode = 500 then
    { kind := .serverError, statusCode := statusCode }
  else { kind := .apiError, statusCode := statusCode }

/-- isRetryableError (src/services/errors.ts lines 406-421): network
errors, timeouts, ServerError instances, and the statuses 429, 502, 503,
504 are retried. -/
def isRetryableError (e : ApiError) : Bool :=
  decide (e.kind = .networkError) || decide (e.kind = .timeoutError) ||
  decide (e.kind = .serverError) || decide (e.statusCode = 429) ||
  decide (e.statusCode = 502) || decide (e.statusCode = 503) ||
  decide (e.statusCode = 504)

/-- response.ok: the status is in the 200..299 range. -/
def statusOk (s : Int) : Bool := decide (200 ≤ s) && decide (s < 300)

/-! ## HTTP client (src/services/http-client.ts) -/

/-- The two credential keys the client keeps in localStorage
(STORAGE_KEYS.AUTH_TOKEN and STORAGE_KEYS.USER_DATA). -/
structure LocalStorage where
  authToken : Option String
  userData : Option String
deriving DecidableEq, Repr

/-- The default error-interceptor list (setupDefaultInterceptors,
src/services/http-client.ts lines 92-104) holds exactly the unauthorized
handler: on statusCode 401 it removes both stored credentials and
dispatches one global auth:logout event, then rethrows the error.
Returns the storage and the running count of logout events dispatched. -/
def runErrorInterceptors (e : ApiError) (st : LocalStorage) (dispatched : Nat) :
    LocalStorage × Nat :=
  if e.statusCode = 401 then ({ authToken := none, userData := none }, dispatched + 1)
  else (st, dispatched)

/-- How one fetch attempt settles: an HTTP response (status, parsed body,
Retry-After header, field errors of the body), an abort fired by the
timeout signal, or a network-level failure (a TypeError from fetch). -/
inductive AttemptOutcome where
  | httpResponse (status : Int) (body : Int) (retryAfterHeader : Option Int)
      (errors : FieldErrors)
  | abortTimeout
  | networkFailure
deriving DecidableEq, Repr

/-- A request either resolves with a parsed body or rejects with a typed
error. -/
inductive ReqOutcome where
  | success (body : Int)
  | failure (e : ApiError)
deriving DecidableEq, Repr

/-- Observable record of one makeRequest run: how many fetch attempts
were performed, the backoff delays awaited before each retry (in order),
the HTTP statuses of the responses that settled, the (url, headers) each
attempt was issued with, the outcome, and the credential storage and
logout-dispatch count after the run. -/
structure RunResult where
  attempts : Nat
  delays : List Int
  statuses : List Int
  attemptLog : List (String × HeaderMap)
  outcome : ReqOutcome
  store : LocalStorage
  logoutDispatches : Nat
deriving DecidableEq, Repr

/-- HttpClient.makeRequest (src/services/http-client.ts lines 130-210).
`outcomes` tells how fetch settles on the successive attempts; `attempt`
is the 1-based attempt counter of the source.  A non-ok response is
classified by parseErrorResponse; if retryable and attempt < retryAttempts
the client waits retryDelay * 2 ^ (attempt - 1) and recurses with the
same url and options; otherwise the error interceptors run and the error
is thrown.  Timeouts and network failures retry under the same backoff
but are thrown without running the error interceptors.  An empty
`outcomes` list (no behaviour supplied) stands for a run that was never
given a fetch result and yields a zero-attempt network failure. -/
def makeRequest (url : String) (headers : HeaderMap) (retryAttempts : Nat)
    (retryDelay : Int) (outcomes : List AttemptOutcome) (attempt : Nat)
    (st : LocalStorage) (dispatched : Nat) : RunResult :=
  match outcomes with
  | [] => ⟨0, [], [], [], .failure { kind := .networkError, statusCode := 0 }, st, dispatched⟩
  | o :: rest =>
    match o with
    | .httpResponse status body retryAfterHeader errors =>
      if statusOk status then
        ⟨1, [], [status], [(url, headers)], .success body, st, dispatched⟩
      else
        let e := parseErrorResponse status retryAfterHeader errors
        if isRetryableError e = true ∧ attempt < retryAttempts then
          let r := makeRequest url headers retryAttempts retryDelay rest (attempt + 1) st dispatched
          ⟨r.attempts + 1, retryDelay * 2 ^ (attempt - 1) :: r.delays, status :: r.statuses,
            (url, headers) :: r.attemptLog, r.outcome, r.store, r.logoutDispatches⟩
        else
          let sd := runErrorInterceptors e st dispatched
          ⟨1, [], [status], [(url, headers)], .failure e, sd.1, sd.2⟩
    | .abortTimeout =>
      if attempt < retryAttempts then
        let r := makeRequest url headers retryAttempts retryDelay rest (attempt + 1) st dispatched
        ⟨r.attempts + 1, retryDelay * 2 ^ (attempt - 1) :: r.delays, r.statuses,
          (url, headers) :: r.attemptLog, r.outcome, r.store, r.logoutDispatches⟩
      else
        ⟨1, [], [], [(url, headers)], .failure { kind := .timeoutError, statusCode := 0 }, st, dispatched⟩
    | .networkFailure =>
      if attempt < retryAttempts then
        let r := makeRequest url headers retryAttempts retryDelay rest (attempt + 1) st dispatched
        ⟨r.attempts + 1, retryDelay * 2 ^ (attempt - 1) :: r.delays, r.statuses,
          (url, headers) :: r.attemptLog, r.outcome, r.store, r.logoutDispatches⟩
      else
        ⟨1, [], [], [(url, headers)], .failure { kind := .networkError, statusCode := 0 }, st, dispatched⟩

/-- ApiConfig (src/services/config.ts).  `timeout` is not modelled (an
elapsed timeout appears as AttemptOutcome.abortTimeout) and logRequests
is taken as false, so the logging interceptors are never installed. -/
structure ApiConfig where
  baseURL : String
  retryAttempts : Nat
  retryDelay : Int
  cacheEnabled : Bool
  cacheTTL : Int
deriving DecidableEq, Repr

/-- defaultApiConfig (src/services/config.ts lines 35-43). -/
def defaultApiConfig : ApiConfig :=
  { baseURL := "http://localhost:8000", retryAttempts := 3, retryDelay := 1000,
    cacheEnabled := true, cacheTTL := 300000 }

/-- The per-request options of the source's RequestOptions interface that
are observable in this model. -/
structure RequestOptions where
  method : Option String := none
  headers : HeaderMap := []
  retryAttempts : Option Nat := none
  retryDelay : Option Int := none
  skipAuth : Bool := false
  skipCache : Bool := false
  cacheTTL : Option Int := none
deriving DecidableEq, Repr

/-- request() merges a default Content-Type header under the caller's
headers before the interceptors run. -/
def withDefaultHeaders (opts : RequestOptions) : RequestOptions :=
  if opts.headers.any (fun p => decide (p.1 = "Content-Type")) then opts
  else { opts with headers := ("Content-Type", "application/json") :: opts.headers }

/-- The auth request interceptor (setupDefaultInterceptors, lines 66-77):
unless skipAuth, read the token stored at call time and set the
Authorization header to Bearer token. -/
def authInterceptor (st : LocalStorage) (url : String) (opts : RequestOptions) :
    String × RequestOptions :=
  if opts.skipAuth then (url, opts)
  else
    match st.authToken with
    | some t =>
      (url, { opts with headers :=
        (opts.headers.filter (fun p => decide (p.1 ≠ "Authorization"))) ++
          [("Authorization", "Bearer " ++ t)] })
    | none => (url, opts)

/-- The default request-interceptor list holds exactly the auth
interceptor (the logging interceptor is only installed in development). -/
def runRequestInterceptors (st : LocalStorage) (url : String) (opts : RequestOptions) :
    String × RequestOptions :=
  authInterceptor st url opts

/-- Endpoint resolution at the top of request(): absolute URLs pass
through, relative endpoints are prefixed with the configured baseURL. -/
def resolveUrl (cfg : ApiConfig) (endpoint : String) : String :=
  if endpoint.startsWith "http" then endpoint else cfg.baseURL ++ endpoint

/-! ## GET cache (src/services/http-client.ts lines 296-336) -/

/-- One entry of the client's response cache. -/
structure CacheEntry where
  body : Int
  timestamp : Int
  ttl : Int
deriving DecidableEq, Repr

/-- The cache Map, keyed by method:url strings. -/
abbrev CacheMap := List (String × CacheEntry)

def cacheLookup : CacheMap → String → Option CacheEntry
  | [], _ => none
  | p :: rest, k => if p.1 = k then some p.2 else cacheLookup rest k

def cacheDelete : CacheMap → String → CacheMap
  | [], _ => []
  | p :: rest, k => if p.1 = k then cacheDelete rest k else p :: cacheDelete rest k

/-- HttpClient.cacheResponse (lines 315-321): store the body under the
key with the write-time timestamp and the ttl. -/
def cacheResponse (c : CacheMap) (k : String) (e : CacheEntry) : CacheMap :=
  cacheDelete c k ++ [(k, e)]

/-- HttpClient.getCachedResponse (lines 299-310): serve the entry unless
now - timestamp > ttl, in which case delete it (lazy eviction) and miss. -/
def getCachedResponse (c : CacheMap) (key : String) (now : Int) :
    Option Int × CacheMap :=
  match cacheLookup c key with
  | none => (none, c)
  | some entry =>
    if now - entry.timestamp > entry.ttl then (none, cacheDelete c key)
    else (some entry.body, c)

/-- Observable record of one request() call.  `fromCache` is whether the
body was served from the cache without touching the network;
`networkAttempts`, `delays`, `statuses` and `attemptLog` come from the
makeRequest run (empty on a cache hit); `interceptorRuns` counts how many
times the request-interceptor list was run. -/
structure RequestResult where
  outcome : ReqOutcome
  fromCache : Bool
  networkAttempts : Nat
  delays : List Int
  statuses : List Int
  attemptLog : List (String × HeaderMap)
  interceptorRuns : Nat
  cache : CacheMap
  store : LocalStorage
  logoutDispatches : Nat
deriving DecidableEq, Repr

/-- HttpClient.request (src/services/http-client.ts lines 215-268): add
default headers, run the request interceptors once, consult the cache for
GET requests when caching is enabled and not skipped, otherwise run
makeRequest starting at attempt 1, and cache a successful GET body under
method:url with the requested (or default) ttl.  `now` is the clock value
of the call (Date.now() at the cache read and write). -/
def request (cfg : ApiConfig) (st0 : LocalStorage) (cache0 : CacheMap) (now : Int)
    (endpoint : String) (opts0 : RequestOptions) (outcomes : List AttemptOutcome) :
    RequestResult :=
  let ir := runRequestInterceptors st0 (resolveUrl cfg endpoint) (withDefaultHeaders opts0)
  let url := ir.1
  let opts := ir.2
  let cacheKey := opts.method.getD "GET" ++ ":" ++ url
  let useCache := cfg.cacheEnabled && !opts.skipCache &&
    (decide (opts.method = some "GET") || opts.method.isNone)
  let consulted := if useCache then getCachedResponse cache0 cacheKey now else (none, cache0)
  match consulted.1 with
  | some v => ⟨.success v, true, 0, [], [], [], 1, consulted.2, st0, 0⟩
  | none =>
    let r := makeRequest url opts.headers (opts.retryAttempts.getD cfg.retryAttempts)
      (opts.retryDelay.getD cfg.retryDelay) outcomes 1 st0 0
    match r.outcome with
    | .success body =>
      let cache2 :=
        if useCache then
          cacheResponse consulted.2 cacheKey
            { body := body, timestamp := now, ttl := opts.cacheTTL.getD cfg.cacheTTL }
        else consulted.2
      ⟨.success body, false, r.attempts, r.delays, r.statuses, r.attemptLog, 1,
        cache2, r.store, r.logoutDispatches⟩
    | .failure e =>
      ⟨.failure e, false, r.attempts, r.delays, r.statuses, r.attemptLog, 1,
        consulted.2, r.store, r.logoutDispatches⟩

/-! ## SSE manager (src/services/sse.ts) -/

/-- The subset of sseConfig (src/services/config.ts lines 46-53) that the
reconnect logic reads; the heartbeat fields drive timers that are outside
this model. -/
structure SseConfig where
  maxReconnectAttempts : Nat
  initialReconnectDelay : Int
  maxReconnectDelay : Int
deriving DecidableEq, Repr

def sseConfig : SseConfig :=
  { maxReconnectAttempts := 10, initialReconnectDelay := 1000, maxReconnectDelay := 30000 }

/-- ConnectionState (src/services/sse.ts lines 15-21). -/
inductive ConnectionState where
  | DISCONNECTED
  | CONNECTING
  | CONNECTED
  | RECONNECTING
  | ERROR
deriving DecidableEq, Repr

/-- A browser EventSource as the manager observes it: the resource ids
baked into its URL at construction time, and whether it has reached
readyState CLOSED. -/
structure EventSource where
  resources : List String
  closed : Bool
deriving DecidableEq, Repr

/-- SSEManager state (src/services/sse.ts lines 34-43).  Callbacks are
identified by numbers (function identity); `subscriptions` is the Map
from resource id to its Set of callbacks, in insertion order.
`reconnectPending` is whether a reconnect timeout is armed and
`scheduledDelays` logs the delay of every reconnect ever scheduled.
`openCount` counts the physical connections not yet closed and
`urlLog` records the resource list of every connection at construction:
both are ghost observables of the browser, not fields of the class. -/
structure SSEManager where
  subscriptions : List (String × List Nat)
  eventSource : Option EventSource
  reconnectAttempts : Nat
  connectionState : ConnectionState
  reconnectPending : Bool
  scheduledDelays : List Int
  openCount : Nat
  urlLog : List (List String)
deriving DecidableEq, Repr

def initManager : SSEManager :=
  { subscriptions := [], eventSource := none, reconnectAttempts := 0,
    connectionState := .DISCONNECTED, reconnectPending := false,
    scheduledDelays := [], openCount := 0, urlLog := [] }

/-- Array.from(this.subscriptions.keys()). -/
def subKeys (subs : List (String × List Nat)) : List String := subs.map (fun p => p.1)

/-- this.subscriptions.get(resourceId). -/
def subLookup : List (String × List Nat) → String → Option (List Nat)
  | [], _ => none
  | p :: rest, r => if p.1 = r then some p.2 else subLookup rest r

/-- Membership in a callback Set. -/
def hasCallback : List Nat → Nat → Bool
  | [], _ => false
  | c :: rest, cb => if c = cb then true else hasCallback rest cb

/-- Set.delete(callback). -/
def removeCb : List Nat → Nat → List Nat
  | [], _ => []
  | c :: rest, cb => if c = cb then removeCb rest cb else c :: removeCb rest cb

/-- subscribe's registration step: create the Set for a new resource and
add the callback (a Set add is a no-op on a member). -/
def subAdd : List (String × List Nat) → String → Nat → List (String × List Nat)
  | [], r, cb => [(r, [cb])]
  | p :: rest, r, cb =>
    if p.1 = r then (p.1, if hasCallback p.2 cb then p.2 else p.2 ++ [cb]) :: rest
    else p :: subAdd rest r cb

/-- The unsubscribe closure's removal step: delete the callback from the
resource's Set and drop the resource when its Set empties. -/
def subRemoveCb : List (String × List Nat) → String → Nat → List (String × List Nat)
  | [], _, _ => []
  | p :: rest, r, cb =>
    if p.1 = r then
      if (removeCb p.2 cb).isEmpty then subRemoveCb rest r cb
      else (p.1, removeCb p.2 cb) :: subRemoveCb rest r cb
    else p :: subRemoveCb rest r cb

/-- eventSource exists and readyState is not CLOSED. -/
def esOpen : Option EventSource → Bool
  | some es => !es.closed
  | none => false

/-- SSEManager.connect (src/services/sse.ts lines 163-219): return early
when an eventSource exists whose readyState is not CLOSED, return when
there are no subscriptions, otherwise move to CONNECTING and construct a
new EventSource whose URL carries the comma-joined list of all currently
subscribed resource ids.  The onopen / onerror callbacks it installs are
delivered later as separate operations. -/
def connect (m : SSEManager) : SSEManager :=
  if esOpen m.eventSource then m
  else if m.subscriptions.isEmpty then m
  else
    let rs := subKeys m.subscriptions
    { m with connectionState := .CONNECTING,
             eventSource := some { resources := rs, closed := false },
             openCount := m.openCount + 1,
             urlLog := m.urlLog ++ [rs] }

/-- SSEManager.disconnect (lines 376-394): clear any armed reconnect
timeout, close the eventSource if any (closing decrements the count of
open physical connections unless the source had already closed itself),
and end in DISCONNECTED.  The isManualClose flag is set and reset inside
this straight-line body, so it has no observable effect here. -/
def disconnect (m : SSEManager) : SSEManager :=
  let m1 := { m with reconnectPending := false }
  let m2 :=
    match m1.eventSource with
    | some es =>
      { m1 with eventSource := none,
                openCount := if es.closed then m1.openCount else m1.openCount - 1 }
    | none => m1
  { m2 with connectionState := .DISCONNECTED }

/-- SSEManager.reconnect (lines 368-371). -/
def reconnect (m : SSEManager) : SSEManager := connect (disconnect m)

/-- SSEManager.subscribe (lines 81-105): register the callback; if the
resource is new while an eventSource exists whose readyState is not
CLOSED, reconnect with the updated list, otherwise connect. -/
def subscribe (m : SSEManager) (r : String) (cb : Nat) : SSEManager :=
  let isNewResource := (subLookup m.subscriptions r).isNone
  let m1 := { m with subscriptions := subAdd m.subscriptions r cb }
  if isNewResource && esOpen m1.eventSource then reconnect m1 else connect m1

/-- Running the unsubscribe closure returned by subscribe (lines
107-124): remove the callback, then disconnect when no subscriptions
remain, else reconnect with the updated resource list. -/
def unsubscribeRun (m : SSEManager) (r : String) (cb : Nat) : SSEManager :=
  let m1 := { m with subscriptions := subRemoveCb m.subscriptions r cb }
  if m1.subscriptions.isEmpty then disconnect m1 else reconnect m1

/-- SSEManager.scheduleReconnect (lines 337-363): clear any armed
timeout; at maxReconnectAttempts give up in ERROR; otherwise schedule a
reconnect after min(initialReconnectDelay * 2 ^ reconnectAttempts,
maxReconnectDelay), increment the attempt counter and move to
RECONNECTING. -/
def scheduleReconnect (m : SSEManager) : SSEManager :=
  let m1 := { m with reconnectPending := false }
  if sseConfig.maxReconnectAttempts ≤ m1.reconnectAttempts then
    { m1 with connectionState := .ERROR }
  else
    let delay := min (sseConfig.initialReconnectDelay * 2 ^ m1.reconnectAttempts)
      sseConfig.maxReconnectDelay
    { m1 with reconnectAttempts := m1.reconnectAttempts + 1,
              connectionState := .RECONNECTING,
              reconnectPending := true,
              scheduledDelays := m1.scheduledDelays ++ [delay] }

/-- The eventSource.onerror handler (lines 200-211) for a transport error
on which the browser closed the source (readyState CLOSED): the state
moves to ERROR, the heartbeat stops, and since the close was not manual a
reconnect is scheduled.  Without an eventSource no handler is installed,
so the operation is a no-op. -/
def onError (m : SSEManager) : SSEManager :=
  match m.eventSource with
  | none => m
  | some es =>
    let m1 := { m with eventSource := some { es with closed := true },
                       openCount := if es.closed then m.openCount else m.openCount - 1,
                       connectionState := .ERROR }
    scheduleReconnect m1

/-- The eventSource.onopen handler (lines 184-189): CONNECTED, reset the
reconnect-attempt counter (the heartbeat start is not modelled). -/
def onOpen (m : SSEManager) : SSEManager :=
  { m with connectionState := .CONNECTED, reconnectAttempts := 0 }

/-- The armed reconnect timeout firing (lines 360-362). -/
def timerFire (m : SSEManager) : SSEManager :=
  if m.reconnectPending then reconnect { m with reconnectPending := false } else m

/-- SSEManager.notifySubscribers (lines 317-332): look up the callback
Set registered under the frame's resource id and invoke each member (a
missing id invokes nothing).  Returns the list of callbacks invoked. -/
def notifySubscribers (m : SSEManager) (resourceId : String) : List Nat :=
  (subLookup m.subscriptions resourceId).getD []

/-- The externally driven operations of the manager. -/
inductive SSEOp where
  | sub (r : String) (cb : Nat)
  | unsub (r : String) (cb : Nat)
  | openEvt
  | errorEvt
  | timer
deriving DecidableEq, Repr

def sseStep (m : SSEManager) : SSEOp → SSEManager
  | .sub r cb => subscribe m r cb
  | .unsub r cb => unsubscribeRun m r cb
  | .openEvt => onOpen m
  | .errorEvt => onError m
  | .timer => timerFire m

/-- Run a sequence of operations from the fresh manager. -/
def runOps (ops : List SSEOp) : SSEManager := ops.foldl sseStep initManager

/-- The resource list of the currently open physical connection, if one
is open (an eventSource at readyState CLOSED is not an open connection). -/
def openConn (m : SSEManager) : Option (List String) :=
  match m.eventSource with
  | some es => if es.closed then none else some es.resources
  | none => none

/-! ## Workflow discard / reset (src/components) -/

/-- The externally visible actions a discard / reset handler performs, in
program order.  `unsubscribeOld` is running the unsubscribe handle of the
old resource subscription; `serverDelete` is the DELETE request for the
session; `clearStoredId` / `storeNewId` touch the locally persisted
session id; `setSessionNull` clears the local session mirror (which, in
the creation flow, is what later drives the unsubscribe, because the
useSSESubscription hook reacts to the resource id turning null);
`resetStateToInitial` returns the state machine to its first phase and
clears the phase-specific fields. -/
inductive ResetAction where
  | unsubscribeOld
  | serverDelete
  | clearStoredId
  | storeNewId
  | setSessionNull
  | resetStateToInitial
deriving DecidableEq, Repr

/-- handleReset (src/components/orchestrator/OrchestratorFlow.tsx lines
299-319), in program order: run and null the unsubscribe handle, await
resetSession(sessionId) (failures swallowed), clear the stored session id
for the influencer, store the freshly generated id, then reset all local
state (session null, step 1, fields cleared). -/
def handleResetTrace : List ResetAction :=
  [.unsubscribeOld, .serverDelete, .clearStoredId, .storeNewId, .resetStateToInitial]

/-- handleDiscard (src/components/creation/CreationFlow.tsx lines
163-177), success path, in program order: await discardSession, set the
session to null, reset step and fields to the initial input phase; the
unsubscribe then runs in the useSSESubscription effect cleanup after the
re-render, once the resource id has become null.  No locally persisted
session id exists in this flow (the active session is recovered from the
server). -/
def handleDiscardTrace : List ResetAction :=
  [.serverDelete, .setSessionNull, .resetStateToInitial, .unsubscribeOld]

/-- Position of the first occurrence of an action in a trace (length of
the trace when absent). -/
def posOf : List ResetAction → ResetAction → Nat
  | [], _ => 0
  | a :: rest, b => if a = b then 0 else posOf rest b + 1

/-- The ordering the claim prescribes for a discard trace: server-side
delete, then clearing the stored identifier, then unsubscribing, then
returning to the initial phase — all four present and in exactly that
order. -/
def claimedDiscardOrder (t : List ResetAction) : Bool :=
  decide (ResetAction.serverDelete ∈ t) && decide (ResetAction.clearStoredId ∈ t) &&
  decide (ResetAction.unsubscribeOld ∈ t) && decide (ResetAction.resetStateToInitial ∈ t) &&
  decide (posOf t .serverDelete < posOf t .clearStoredId) &&
  decide (posOf t .clearStoredId < posOf t .unsubscribeOld) &&
  decide (posOf t .unsubscribeOld < posOf t .resetStateToInitial)

/-! ## Orchestrator research-plan editing (OrchestratorFlow.tsx) -/

/-- A research-plan sub-task as the editing logic sees it: its id and the
locally editable payload (name stands for the name / queries fields). -/
structure SubTask where
  id : String
  name : String
deriving DecidableEq, Repr

/-- updateSubTask (OrchestratorFlow.tsx lines 386-387): rewrite the entry
with the given id in the editing plan. -/
def updateSubTask (plan : List SubTask) (tid : String) (newName : String) : List SubTask :=
  plan.map (fun t => if t.id = tid then { t with name := newName } else t)

/-- The editingPlan sync effect (OrchestratorFlow.tsx lines 293-296):
whenever the session's research_plan is present (and the effect fires,
i.e. the fetched plan object changed), setEditingPlan(session.research_plan)
replaces the whole editing plan. -/
def syncEditingPlan (researchPlan : Option (List SubTask)) (editingPlan : List SubTask) :
    List SubTask :=
  match researchPlan with
  | some p => p
  | none => editingPlan

/-- The component state that the plan-editing claims concern. -/
structure OrchState where
  sessionPlan : Option (List SubTask)
  editingPlan : List SubTask
  currentStep : Nat
deriving DecidableEq, Repr

/-- Processing an orch_plan_ready push event (handleSSE, OrchestratorFlow.tsx
lines 219-224, with refreshSession lines 206-210): refreshSession fetches
the session whose research_plan is `serverPlan`, setSession stores it and
the sync effect replaces editingPlan with it, and the step moves to 2. -/
def processPlanReadyEvent (s : OrchState) (serverPlan : Option (List SubTask)) : OrchState :=
  let s1 := { s with sessionPlan := serverPlan }
  let s2 := { s1 with editingPlan := syncEditingPlan serverPlan s1.editingPlan }
  { s2 with currentStep := 2 }

/-! ## Concrete scenario inputs referenced by the theorems -/

/-- An endpoint that always answers HTTP 503 (three outcomes cover a run
with retryAttempts = 3). -/
def always503 : List AttemptOutcome := List.replicate 3 (.httpResponse 503 0 none [])

/-- One subscription followed by 12 consecutive fatal transport errors,
each error leaving its reconnect timer free to fire. -/
def twelveErrors : List SSEOp :=
  SSEOp.sub "session:1" 0 :: (List.replicate 12 [SSEOp.errorEvt, SSEOp.timer]).flatten

/-- Subscribing three different resource identifiers in sequence. -/
def threeSubs : List SSEOp :=
  [SSEOp.sub "session:1" 1, SSEOp.sub "post:2" 2, SSEOp.sub "influencer:3" 3]

/-- Callback 1 subscribed to session:1 and callback 2 to session:2. -/
def twoSubsState : SSEManager :=
  runOps [SSEOp.sub "session:1" 1, SSEOp.sub "session:2" 2]

/-- A delay sequence never decreases. -/
def nondecreasingInt : List Int → Bool
  | [] => true
  | [_] => true
  | a :: b :: rest => decide (a ≤ b) && nondecreasingInt (b :: rest)

/-- The connection invariant of the SSE manager: the number of physical
connections not yet closed matches whether the current eventSource is
open, and an open connection's URL carries exactly the currently
subscribed resource identifiers. -/
def ConnInv (m : SSEManager) : Prop :=
  (m.openCount = match openConn m with | some _ => 1 | none => 0) ∧
  (openConn m = none ∨ openConn m = some (subKeys m.subscriptions))

/-- The cached GET scenario: options of a GET with cacheTTL = 1000 ms. -/
def getXOptions : RequestOptions := { method := some "GET", cacheTTL := some 1000 }

/-- GET /x at t = 0 answered 200 with body 42: populates the cache. -/
def firstGetX : RequestResult :=
  request defaultApiConfig ⟨none, none⟩ [] 0 "/x" getXOptions [.httpResponse 200 42 none []]

/-- The same GET re-issued at t = 500 against the populated cache; no
fetch behaviour is supplied, so any network attempt would fail. -/
def secondGetX : RequestResult :=
  request defaultApiConfig ⟨none, none⟩ firstGetX.cache 500 "/x" getXOptions []

/-- The same GET re-issued at t = 1500, the network now answering body 7. -/
def thirdGetX : RequestResult :=
  request defaultApiConfig ⟨none, none⟩ firstGetX.cache 1500 "/x" getXOptions
    [.httpResponse 200 7 none []]

/-- A one-entry research plan as the server returns it. -/
def planT1Original : List SubTask := [{ id := "t1", name := "original" }]

/-- The component state after the user edited sub-task t1 locally while
the server still holds the original plan. -/
def editedState : OrchState :=
  { sessionPlan := some planT1Original,
    editingPlan := updateSubTask planT1Original "t1" "my edit",
    currentStep := 2 }

/-! ## Helper lemmas -/

/-- A manager whose eventSource is absent or closed has no open connection. -/
theorem openConn_none_of_not_open (m : SSEManager) (h : esOpen m.eventSource = false) :
    openConn m = none := by
  cases hes : m.eventSource with
  | none => simp [openConn, hes]
  | some es =>
    rw [hes] at h
    simp [esOpen] at h
    simp [openConn, hes, h]

/-- connect preserves the connection invariant. -/
theorem connInv_connect (m : SSEManager) (h : ConnInv m) : ConnInv (connect m) := by
  unfold connect
  by_cases hop : esOpen m.eventSource
  · simpa [hop] using h
  · rw [if_neg (by simp [hop])]
    by_cases hemp : m.subscriptions.isEmpty
    · simpa [hemp] using h
    · rw [if_neg hemp]
      obtain ⟨h1, _⟩ := h
      have hoc := openConn_none_of_not_open m (by simpa using hop)
      rw [hoc] at h1
      simp at h1
      constructor
      · simp [openConn, h1]
      · right
        simp [openConn, subKeys]

/-- disconnect closes everything and restores the invariant from its
counting half alone. -/
theorem connInv_disconnect (m : SSEManager)
    (h1 : m.openCount = match openConn m with | some _ => 1 | none => 0) :
    ConnInv (disconnect m) ∧ openConn (disconnect m) = none := by
  unfold disconnect
  cases hes : m.eventSource with
  | none =>
    simp [openConn, hes] at h1
    dsimp only
    refine ⟨⟨?_, Or.inl rfl⟩, rfl⟩
    simp [openConn, h1]
  | some es =>
    dsimp only
    cases hcl : es.closed with
    | true =>
      simp [openConn, hes, hcl] at h1
      refine ⟨⟨?_, Or.inl rfl⟩, rfl⟩
      simp [openConn, h1]
    | false =>
      simp [openConn, hes, hcl] at h1
      refine ⟨⟨?_, Or.inl rfl⟩, rfl⟩
      simp [openConn, h1]

/-- reconnect re-establishes the invariant from the counting half alone. -/
theorem connInv_reconnect (m : SSEManager)
    (h1 : m.openCount = match openConn m with | some _ => 1 | none => 0) :
    ConnInv (reconnect m) := by
  unfold reconnect
  exact connInv_connect _ (connInv_disconnect m h1).1

/-- An open connection implies an open eventSource. -/
theorem esOpen_of_openConn_some (m : SSEManager) (rs : List String)
    (h : openConn m = some rs) : esOpen m.eventSource = true := by
  cases hes : m.eventSource with
  | none => simp [openConn, hes] at h
  | some es =>
    cases hcl : es.closed with
    | true => simp [openConn, hes, hcl] at h
    | false => simp [esOpen, hes, hcl]

/-- Adding a callback under an already registered resource id leaves the
key list unchanged. -/
theorem subKeys_subAdd_of_found (subs : List (String × List Nat)) (r : String) (cb : Nat)
    (h : (subLookup subs r).isSome) :
    subKeys (subAdd subs r cb) = subKeys subs := by
  induction subs with
  | nil => simp [subLookup] at h
  | cons p rest ih =>
    by_cases hp : p.1 = r
    · simp [subAdd, hp, subKeys]
    · simp [subLookup, hp] at h
      have hih := ih h
      simp [subKeys] at hih
      simp [subAdd, hp, subKeys, hih]

/-- subscribe preserves the connection invariant. -/
theorem connInv_subscribe (m : SSEManager) (r : String) (cb : Nat) (h : ConnInv m) :
    ConnInv (subscribe m r cb) := by
  unfold subscribe
  dsimp only
  obtain ⟨h1, h2⟩ := h
  by_cases hg : (subLookup m.subscriptions r).isNone && esOpen m.eventSource
  · rw [if_pos hg]
    exact connInv_reconnect _ h1
  · rw [if_neg hg]
    apply connInv_connect
    refine ⟨h1, ?_⟩
    rcases h2 with h2 | h2
    · exact Or.inl h2
    · right
      have hop := esOpen_of_openConn_some m _ h2
      have hfound : (subLookup m.subscriptions r).isSome := by
        rcases hlk : subLookup m.subscriptions r with _ | l
        · exact absurd (by simp [hlk, hop]) hg
        · simp
      have hkeys := subKeys_subAdd_of_found m.subscriptions r cb hfound
      show openConn m = some (subKeys (subAdd m.subscriptions r cb))
      rw [hkeys]
      exact h2

/-- Running an unsubscribe handle preserves the connection invariant. -/
theorem connInv_unsub (m : SSEManager) (r : String) (cb : Nat) (h : ConnInv m) :
    ConnInv (unsubscribeRun m r cb) := by
  unfold unsubscribeRun
  dsimp only
  obtain ⟨h1, _⟩ := h
  by_cases hemp : (subRemoveCb m.subscriptions r cb).isEmpty
  · rw [if_pos hemp]
    exact (connInv_disconnect
      { m with subscriptions := subRemoveCb m.subscriptions r cb } h1).1
  · rw [if_neg hemp]
    exact connInv_reconnect _ h1

/-- scheduleReconnect touches neither the connection nor the
subscriptions. -/
theorem connInv_scheduleReconnect (m : SSEManager) (h : ConnInv m) :
    ConnInv (scheduleReconnect m) := by
  unfold scheduleReconnect
  dsimp only
  obtain ⟨h1, h2⟩ := h
  split
  · exact ⟨h1, h2⟩
  · exact ⟨h1, h2⟩

/-- A fatal transport error preserves the connection invariant. -/
theorem connInv_onError (m : SSEManager) (h : ConnInv m) : ConnInv (onError m) := by
  unfold onError
  cases hes : m.eventSource with
  | none => exact h
  | some es =>
    dsimp only
    apply connInv_scheduleReconnect
    obtain ⟨h1, _⟩ := h
    cases hcl : es.closed with
    | true =>
      simp [openConn, hes, hcl] at h1
      exact ⟨by simp [openConn, h1, hcl], Or.inl (by simp [openConn])⟩
    | false =>
      simp [openConn, hes, hcl] at h1
      exact ⟨by simp [openConn, h1, hcl], Or.inl (by simp [openConn])⟩

/-- onopen preserves the connection invariant. -/
theorem connInv_onOpen (m : SSEManager) (h : ConnInv m) : ConnInv (onOpen m) := h

/-- A firing reconnect timer preserves the connection invariant. -/
theorem connInv_timerFire (m : SSEManager) (h : ConnInv m) : ConnInv (timerFire m) := by
  unfold timerFire
  by_cases hp : m.reconnectPending
  · rw [if_pos hp]
    exact connInv_reconnect _ h.1
  · rw [if_neg hp]
    exact h

/-- Every operation preserves the connection invariant. -/
theorem connInv_step (m : SSEManager) (op : SSEOp) (h : ConnInv m) : ConnInv (sseStep m op) := by
  cases op with
  | sub r cb => exact connInv_subscribe m r cb h
  | unsub r cb => exact connInv_unsub m r cb h
  | openEvt => exact connInv_onOpen m h
  | errorEvt => exact connInv_onError m h
  | timer => exact connInv_timerFire m h

/-- The connection invariant holds along any fold of operations. -/
theorem connInv_foldl (ops : List SSEOp) : ∀ m, ConnInv m → ConnInv (ops.foldl sseStep m) := by
  induction ops with
  | nil => exact fun m h => h
  | cons op rest ih => exact fun m h => ih _ (connInv_step m op h)

/-- The connection invariant holds in every reachable manager state. -/
theorem connInv_runOps (ops : List SSEOp) : ConnInv (runOps ops) :=
  connInv_foldl ops initManager ⟨rfl, Or.inl rfl⟩

/-- connect leaves the subscription registry untouched. -/
theorem subs_connect (m : SSEManager) : (connect m).subscriptions = m.subscriptions := by
  unfold connect
  split
  · rfl
  · split <;> rfl

/-- disconnect leaves the subscription registry untouched. -/
theorem subs_disconnect (m : SSEManager) : (disconnect m).subscriptions = m.subscriptions := by
  unfold disconnect
  cases hes : m.eventSource <;> simp

/-- reconnect leaves the subscription registry untouched. -/
theorem subs_reconnect (m : SSEManager) : (reconnect m).subscriptions = m.subscriptions := by
  unfold reconnect
  rw [subs_connect, subs_disconnect]

/-- Deleting a callback from a Set removes it. -/
theorem hasCallback_removeCb (l : List Nat) (cb : Nat) :
    hasCallback (removeCb l cb) cb = false := by
  induction l with
  | nil => rfl
  | cons c rest ih =>
    by_cases hc : c = cb
    · simp [removeCb, hc, ih]
    · simp [removeCb, hc, hasCallback, ih]

/-- After the removal step of an unsubscribe, the callback is no longer
registered under its resource id. -/
theorem hasCallback_subRemoveCb (subs : List (String × List Nat)) (r : String) (cb : Nat) :
    hasCallback ((subLookup (subRemoveCb subs r cb) r).getD []) cb = false := by
  induction subs with
  | nil => rfl
  | cons p rest ih =>
    by_cases hp : p.1 = r
    · by_cases he : (removeCb p.2 cb).isEmpty
      · simp [subRemoveCb, hp, he, ih]
      · simp [subRemoveCb, hp, he, subLookup, hasCallback_removeCb]
    · simp [subRemoveCb, hp, subLookup, ih]

/-- A callback whose unsubscribe handle has run is never handed a frame
for its resource id again. -/
theorem notify_after_unsubscribe (m : SSEManager) (r : String) (cb : Nat) :
    hasCallback (notifySubscribers (unsubscribeRun m r cb) r) cb = false := by
  unfold unsubscribeRun notifySubscribers
  dsimp only
  split
  · rw [subs_disconnect]
    exact hasCallback_subRemoveCb m.subscriptions r cb
  · rw [subs_reconnect]
    exact hasCallback_subRemoveCb m.subscriptions r cb

/-- parseErrorResponse always carries the response status through. -/
theorem parseErrorResponse_statusCode (s : Int) (ra : Option Int) (fe : FieldErrors) :
    (parseErrorResponse s ra fe).statusCode = s := by
  unfold parseErrorResponse
  split_ifs with h1 h2 h3 h4 h5 h6 <;> simp_all

/-- A 401 classifies as UnauthorizedError, which is not retryable. -/
theorem not_retryable_401 (ra : Option Int) (fe : FieldErrors) :
    isRetryableError (parseErrorResponse 401 ra fe) = false := rfl

/-- makeRequest issues every attempt with the url and headers it was
given, and dispatches the logout side effect (clearing both credentials)
exactly once when a 401 response is consumed and never otherwise. -/
theorem makeRequest_spec (url : String) (headers : HeaderMap) (n : Nat) (rd : Int) :
    ∀ (outcomes : List AttemptOutcome) (attempt : Nat) (st : LocalStorage) (k : Nat),
      (makeRequest url headers n rd outcomes attempt st k).attemptLog =
        List.replicate (makeRequest url headers n rd outcomes attempt st k).attempts
          (url, headers) ∧
      (makeRequest url headers n rd outcomes attempt st k).logoutDispatches =
        (if (401 : Int) ∈ (makeRequest url headers n rd outcomes attempt st k).statuses
          then k + 1 else k) ∧
      (makeRequest url headers n rd outcomes attempt st k).store =
        (if (401 : Int) ∈ (makeRequest url headers n rd outcomes attempt st k).statuses
          then { authToken := none, userData := none } else st) := by
  intro outcomes
  induction outcomes with
  | nil => intro attempt st k; simp [makeRequest]
  | cons o rest ih =>
    intro attempt st k
    cases o with
    | httpResponse status body ra errs =>
      by_cases hok : statusOk status = true
      · have hne : ¬ ((401 : Int) = status) := by
          unfold statusOk at hok
          simp at hok
          omega
        unfold makeRequest
        dsimp only
        rw [if_pos hok]
        refine ⟨by simp, ?_, ?_⟩ <;> simp [hne]
      · by_cases hr : isRetryableError (parseErrorResponse status ra errs) = true ∧ attempt < n
        · have hs401 : ¬ ((401 : Int) = status) := by
            intro hcontra
            rw [← hcontra] at hr
            rw [not_retryable_401] at hr
            exact absurd hr.1 (by simp)
          obtain ⟨ih1, ih2, ih3⟩ := ih (attempt + 1) st k
          unfold makeRequest
          dsimp only
          rw [if_neg hok, if_pos hr]
          dsimp only
          refine ⟨?_, ?_, ?_⟩
          · rw [ih1, List.replicate_succ]
          · simp only [List.mem_cons]
            rw [if_congr (or_iff_right hs401) rfl rfl]
            exact ih2
          · simp only [List.mem_cons]
            rw [if_congr (or_iff_right hs401) rfl rfl]
            exact ih3
        · unfold makeRequest
          dsimp only
          rw [if_neg hok, if_neg hr]
          dsimp only
          refine ⟨by simp, ?_, ?_⟩
          · simp only [List.mem_singleton, runErrorInterceptors, parseErrorResponse_statusCode]
            by_cases h4 : status = 401
            · rw [if_pos h4, if_pos h4.symm]
            · rw [if_neg h4, if_neg (fun h => h4 h.symm)]
          · simp only [List.mem_singleton, runErrorInterceptors, parseErrorResponse_statusCode]
            by_cases h4 : status = 401
            · rw [if_pos h4, if_pos h4.symm]
            · rw [if_neg h4, if_neg (fun h => h4 h.symm)]
    | abortTimeout =>
      by_cases hlt : attempt < n
      · obtain ⟨ih1, ih2, ih3⟩ := ih (attempt + 1) st k
        unfold makeRequest
        dsimp only
        rw [if_pos hlt]
        dsimp only
        exact ⟨by rw [ih1, List.replicate_succ], ih2, ih3⟩
      · unfold makeRequest
        dsimp only
        rw [if_neg hlt]
        exact ⟨by simp, by simp, by simp⟩
    | networkFailure =>
      by_cases hlt : attempt < n
      · obtain ⟨ih1, ih2, ih3⟩ := ih (attempt + 1) st k
        unfold makeRequest
        dsimp only
        rw [if_pos hlt]
        dsimp only
        exact ⟨by rw [ih1, List.replicate_succ], ih2, ih3⟩
      · unfold makeRequest
        dsimp only
        rw [if_neg hlt]
        exact ⟨by simp, by simp, by simp⟩

/-- Lazy eviction leaves no entry behind under the evicted key. -/
theorem cacheLookup_cacheDelete (c : CacheMap) (k : String) :
    cacheLookup (cacheDelete c k) k = none := by
  induction c with
  | nil => rfl
  | cons p rest ih =>
    by_cases hp : p.1 = k
    · simp [cacheDelete, hp, ih]
    · simp [cacheDelete, hp, cacheLookup, ih]

/-! ## Claim theorems -/

/-- C1 (amended): a request with retryAttempts = 3 against an endpoint
that always answers HTTP 503 performs exactly 3 fetch attempts, waits
exactly two backoff delays of retryDelay * 2 ^ 0 = d before the second
attempt and retryDelay * 2 ^ 1 = 2d before the third (no third delay of
4d ever occurs, since the final attempt's failure is surfaced without a
further wait), and then fails with ServerError; the logout side effect
does not fire and the stored credentials are untouched. -/
theorem C1_three_attempts_two_delays (url : String) (headers : HeaderMap) (d : Int)
    (st : LocalStorage) (k : Nat) :
    (makeRequest url headers 3 d always503 1 st k).attempts = 3 ∧
    (makeRequest url headers 3 d always503 1 st k).delays = [d, d * 2] ∧
    (makeRequest url headers 3 d always503 1 st k).outcome =
      ReqOutcome.failure { kind := ErrKind.serverError, statusCode := 503 } ∧
    (makeRequest url headers 3 d always503 1 st k).logoutDispatches = k ∧
    (makeRequest url headers 3 d always503 1 st k).store = st := by
  refine ⟨rfl, ?_, rfl, rfl, rfl⟩
  show [d * 2 ^ 0, d * 2 ^ 1] = [d, d * 2]
  norm_num

/-- C1 counterexample: at retryDelay = 1000 the run against the
always-503 endpoint performs 3 attempts but waits only the two delays
[1000, 2000]; the claimed delay sequence d, 2d, 4d = [1000, 2000, 4000]
is not what the client waits. -/
theorem C1_counterexample :
    (makeRequest "http://localhost:8000/x" [] 3 1000 always503 1 ⟨none, none⟩ 0).attempts = 3 ∧
    (makeRequest "http://localhost:8000/x" [] 3 1000 always503 1 ⟨none, none⟩ 0).delays =
      [1000, 2000] ∧
    (makeRequest "http://localhost:8000/x" [] 3 1000 always503 1 ⟨none, none⟩ 0).delays ≠
      [1000, 2000, 4000] := by decide

/-- C2: in every reachable manager state at most one physical connection
is open, and an open connection's URL carries exactly the comma-joined
list of currently subscribed resource identifiers; in particular, after
subscribing three different identifiers in sequence exactly one
connection is open and its resource list is the union of all three, each
of the three connections ever opened carried the then-current list, and
an identifier removed between connections is absent from the next
connection's URL. -/
theorem C2_single_connection_current_resources (ops : List SSEOp) :
    (runOps ops).openCount ≤ 1 ∧
    (openConn (runOps ops) = none ∨
      openConn (runOps ops) = some (subKeys (runOps ops).subscriptions)) ∧
    openConn (runOps threeSubs) = some ["session:1", "post:2", "influencer:3"] ∧
    (runOps threeSubs).openCount = 1 ∧
    (runOps threeSubs).urlLog =
      [["session:1"], ["session:1", "post:2"], ["session:1", "post:2", "influencer:3"]] ∧
    openConn (runOps (threeSubs ++ [SSEOp.unsub "post:2" 2])) = some ["session:1", "influencer:3"] ∧
    (runOps (threeSubs ++ [SSEOp.unsub "post:2" 2])).openCount = 1 := by
  obtain ⟨h1, h2⟩ := connInv_runOps ops
  refine ⟨?_, h2, by decide, by decide, by decide, by decide, by decide⟩
  cases hoc : openConn (runOps ops) <;> rw [hoc] at h1 <;> simp at h1 <;> omega

/-- C3: a frame tagged with a resource id invokes exactly the callbacks
registered under that id — after callback 1 subscribes to session:1 and
callback 2 to session:2, a frame for session:1 invokes callback 1 only;
after callback 1's unsubscribe has run the same frame invokes nobody
while session:2 still reaches callback 2; and in general a callback whose
unsubscribe has run is never invoked again for its resource id. -/
theorem C3_dispatch_exactly_registered (m : SSEManager) (r : String) (cb : Nat) :
    notifySubscribers twoSubsState "session:1" = [1] ∧
    notifySubscribers twoSubsState "session:2" = [2] ∧
    notifySubscribers (unsubscribeRun twoSubsState "session:1" 1) "session:1" = [] ∧
    notifySubscribers (unsubscribeRun twoSubsState "session:1" 1) "session:2" = [2] ∧
    hasCallback (notifySubscribers (unsubscribeRun m r cb) r) cb = false :=
  ⟨by decide, by decide, by decide, by decide, notify_after_unsubscribe m r cb⟩

/-- C4: under 12 consecutive fatal transport errors with
maxReconnectAttempts = 10 exactly 10 reconnect attempts are scheduled,
the delay before the n-th being min(initialReconnectDelay * 2 ^ (n - 1),
maxReconnectDelay) — the non-decreasing, 30 s-capped sequence
[1000, 2000, 4000, 8000, 16000, 30000, 30000, 30000, 30000, 30000] —
after which the connection state is ERROR and a further error or timer
operation changes nothing (no new attempt is ever scheduled). -/
theorem C4_reconnect_backoff_ceiling :
    (runOps twelveErrors).scheduledDelays =
      (List.range 10).map
        (fun n => min (sseConfig.initialReconnectDelay * 2 ^ n) sseConfig.maxReconnectDelay) ∧
    (runOps twelveErrors).scheduledDelays =
      [1000, 2000, 4000, 8000, 16000, 30000, 30000, 30000, 30000, 30000] ∧
    (runOps twelveErrors).scheduledDelays.length = 10 ∧
    nondecreasingInt (runOps twelveErrors).scheduledDelays = true ∧
    (runOps twelveErrors).connectionState = ConnectionState.ERROR ∧
    (runOps twelveErrors).reconnectAttempts = 10 ∧
    sseStep (runOps twelveErrors) SSEOp.errorEvt = runOps twelveErrors ∧
    sseStep (runOps twelveErrors) SSEOp.timer = runOps twelveErrors := by
  refine ⟨by decide, by decide, by decide, by decide, by decide, by decide, by decide, by decide⟩

/-- C5: a cache entry is served exactly while now - timestamp ≤ ttl; an
entry read after its ttl has elapsed is deleted (lazy eviction) and the
read misses; concretely, the GET of /x cached at t = 0 with ttl 1000 is
served from the cache with no network attempt at t = 500, while at
t = 1500 a fresh network request is made and the cache entry refreshed. -/
theorem C5_cache_ttl (c : CacheMap) (key : String) (now : Int) (e : CacheEntry)
    (hfound : cacheLookup c key = some e) :
    (now - e.timestamp ≤ e.ttl → getCachedResponse c key now = (some e.body, c)) ∧
    (e.ttl < now - e.timestamp →
      (getCachedResponse c key now).1 = none ∧
      cacheLookup (getCachedResponse c key now).2 key = none) ∧
    (secondGetX.outcome = ReqOutcome.success 42 ∧ secondGetX.fromCache = true ∧
      secondGetX.networkAttempts = 0) ∧
    (thirdGetX.fromCache = false ∧ thirdGetX.networkAttempts = 1 ∧
      cacheLookup thirdGetX.cache "GET:http://localhost:8000/x" =
        some { body := 7, timestamp := 1500, ttl := 1000 }) := by
  refine ⟨?_, ?_, by decide, by decide⟩
  · intro hle
    unfold getCachedResponse
    rw [hfound]
    dsimp only
    rw [if_neg (by omega)]
  · intro hgt
    unfold getCachedResponse
    rw [hfound]
    dsimp only
    rw [if_pos (by omega)]
    exact ⟨rfl, cacheLookup_cacheDelete c key⟩

/-- C5 witness: on a one-entry cache holding (42, timestamp 0, ttl 1000),
a read at t = 500 serves the body and a read at t = 1500 misses and
evicts. -/
theorem C5_cache_ttl_witness :
    getCachedResponse [("k", ⟨42, 0, 1000⟩)] "k" 500 = (some 42, [("k", ⟨42, 0, 1000⟩)]) ∧
    ((getCachedResponse [("k", ⟨42, 0, 1000⟩)] "k" 1500).1 = none ∧
      cacheLookup (getCachedResponse [("k", ⟨42, 0, 1000⟩)] "k" 1500).2 "k" = none) :=
  ⟨(C5_cache_ttl [("k", ⟨42, 0, 1000⟩)] "k" 500 ⟨42, 0, 1000⟩ (by decide)).1 (by decide),
   (C5_cache_ttl [("k", ⟨42, 0, 1000⟩)] "k" 1500 ⟨42, 0, 1000⟩ (by decide)).2.1 (by decide)⟩

/-- C6 (amended): the classifier maps 401 to UnauthorizedError, 403 to
ForbiddenError, 404 to NotFoundError, 422 to ValidationError carrying the
field-error map, 429 to RateLimitError carrying the Retry-After hint, and
exactly the four statuses 500, 502, 503 and 504 — not every 5xx status —
to a retryable ServerError; any other non-success status (501 among them)
falls to the base ApiError. -/
theorem C6_error_classifier (ra : Option Int) (fe : FieldErrors) :
    (parseErrorResponse 401 ra fe).kind = ErrKind.unauthorizedError ∧
    (parseErrorResponse 403 ra fe).kind = ErrKind.forbiddenError ∧
    (parseErrorResponse 404 ra fe).kind = ErrKind.notFoundError ∧
    (parseErrorResponse 422 ra fe).kind = ErrKind.validationError ∧
    (parseErrorResponse 422 ra fe).fieldErrors = fe ∧
    (parseErrorResponse 429 ra fe).kind = ErrKind.rateLimitError ∧
    (parseErrorResponse 429 ra fe).retryAfter = ra ∧
    (parseErrorResponse 500 ra fe).kind = ErrKind.serverError ∧
    (parseErrorResponse 502 ra fe).kind = ErrKind.serverError ∧
    (parseErrorResponse 503 ra fe).kind = ErrKind.serverError ∧
    (parseErrorResponse 504 ra fe).kind = ErrKind.serverError ∧
    isRetryableError (parseErrorResponse 500 ra fe) = true ∧
    isRetryableError (parseErrorResponse 502 ra fe) = true ∧
    isRetryableError (parseErrorResponse 503 ra fe) = true ∧
    isRetryableError (parseErrorResponse 504 ra fe) = true :=
  ⟨rfl, rfl, rfl, rfl, rfl, rfl, rfl, rfl, rfl, rfl, rfl, rfl, rfl, rfl, rfl⟩

/-- C6 counterexample: 501 is a 5xx status, yet the classifier maps it to
the base ApiError, not to ServerError, and the result is not retryable. -/
theorem C6_counterexample :
    ((500 : Int) ≤ 501 ∧ (501 : Int) < 600) ∧
    (parseErrorResponse 501 none []).kind ≠ ErrKind.serverError ∧
    (parseErrorResponse 501 none []).kind = ErrKind.apiError ∧
    isRetryableError (parseErrorResponse 501 none []) = false := by decide

/-- C7: a request() call whose run consumes a 401 response clears both
stored credentials and dispatches the auth:logout broadcast exactly once
— and a call that never sees a 401 dispatches it zero times and leaves
the storage untouched — regardless of how many retry attempts preceded
the 401 (a 401 is never itself retried, so it is always consumed by the
attempt that surfaces it). -/
theorem C7_unauthorized_logout_once (cfg : ApiConfig) (st : LocalStorage) (c : CacheMap)
    (now : Int) (endpoint : String) (opts : RequestOptions) (outcomes : List AttemptOutcome) :
    (request cfg st c now endpoint opts outcomes).logoutDispatches =
      (if (401 : Int) ∈ (request cfg st c now endpoint opts outcomes).statuses then 1 else 0) ∧
    (request cfg st c now endpoint opts outcomes).store =
      (if (401 : Int) ∈ (request cfg st c now endpoint opts outcomes).statuses
        then { authToken := none, userData := none } else st) := by
  unfold request
  dsimp only
  split
  · simp
  · split
    · dsimp only
      obtain ⟨_, h2, h3⟩ := makeRequest_spec _ _ _ _ outcomes 1 st 0
      exact ⟨by simpa using h2, by simpa using h3⟩
    · dsimp only
      obtain ⟨_, h2, h3⟩ := makeRequest_spec _ _ _ _ outcomes 1 st 0
      exact ⟨by simpa using h2, by simpa using h3⟩

/-- C8 (amended): both discard handlers perform server-side deletion,
unsubscription and the return to the initial phase (and the orchestrator
reset also clears the persisted id), but not in the claimed order
delete, clear, unsubscribe, reset: handleReset unsubscribes first, then
deletes on the server, then clears and re-stores the persisted id, then
resets the state; handleDiscard deletes on the server, then clears the
session and resets the state, and the unsubscribe runs last, as the
effect cleanup triggered by the cleared session (no persisted id exists
in the creation flow). -/
theorem C8_discard_all_steps_actual_order :
    (ResetAction.unsubscribeOld ∈ handleResetTrace ∧
     ResetAction.serverDelete ∈ handleResetTrace ∧
     ResetAction.clearStoredId ∈ handleResetTrace ∧
     ResetAction.resetStateToInitial ∈ handleResetTrace) ∧
    posOf handleResetTrace ResetAction.unsubscribeOld <
      posOf handleResetTrace ResetAction.serverDelete ∧
    posOf handleResetTrace ResetAction.serverDelete <
      posOf handleResetTrace ResetAction.clearStoredId ∧
    posOf handleResetTrace ResetAction.clearStoredId <
      posOf handleResetTrace ResetAction.storeNewId ∧
    posOf handleResetTrace ResetAction.storeNewId <
      posOf handleResetTrace ResetAction.resetStateToInitial ∧
    (ResetAction.serverDelete ∈ handleDiscardTrace ∧
     ResetAction.unsubscribeOld ∈ handleDiscardTrace ∧
     ResetAction.resetStateToInitial ∈ handleDiscardTrace ∧
     ResetAction.clearStoredId ∉ handleDiscardTrace) ∧
    posOf handleDiscardTrace ResetAction.serverDelete <
      posOf handleDiscardTrace ResetAction.resetStateToInitial ∧
    posOf handleDiscardTrace ResetAction.resetStateToInitial <
      posOf handleDiscardTrace ResetAction.unsubscribeOld := by decide

/-- C8 counterexample: neither handler follows the claimed order — in
handleReset the unsubscribe precedes the server-side deletion, and in
handleDiscard no stored-id clearing exists and the unsubscribe follows
the reset. -/
theorem C8_counterexample :
    claimedDiscardOrder handleResetTrace = false ∧
    claimedDiscardOrder handleDiscardTrace = false ∧
    posOf handleResetTrace ResetAction.unsubscribeOld <
      posOf handleResetTrace ResetAction.serverDelete := by decide

/-- C9 (amended): a push event that refreshes the session replaces the
whole local editing plan with the server's research plan — including
entries whose id still exists in the payload, so in-progress local edits
are discarded wholesale, not merely entries whose id disappeared; only an
absent research_plan leaves the editing plan alone. -/
theorem C9_plan_sync_replaces_wholesale (s : OrchState) (sp : List SubTask)
    (tid newName : String) :
    (processPlanReadyEvent s (some sp)).editingPlan = sp ∧
    (processPlanReadyEvent
      { s with editingPlan := updateSubTask s.editingPlan tid newName } (some sp)).editingPlan = sp ∧
    (processPlanReadyEvent s none).editingPlan = s.editingPlan ∧
    (processPlanReadyEvent s (some sp)).currentStep = 2 ∧
    (processPlanReadyEvent s (some sp)).sessionPlan = some sp :=
  ⟨rfl, rfl, rfl, rfl, rfl⟩

/-- C9 counterexample: with sub-task t1 locally edited to "my edit" and a
server payload still containing id t1 (name "original"), processing the
push event drops the locally edited entry even though its id survives in
the payload — the claim that such entries are left unchanged fails. -/
theorem C9_counterexample :
    (⟨"t1", "my edit"⟩ : SubTask) ∈ editedState.editingPlan ∧
    "t1" ∈ planT1Original.map (fun t => t.id) ∧
    (⟨"t1", "my edit"⟩ : SubTask) ∉
      (processPlanReadyEvent editedState (some planT1Original)).editingPlan ∧
    (processPlanReadyEvent editedState (some planT1Original)).editingPlan =
      planT1Original := by decide

/-- C10: the request-interceptor list (the auth interceptor that reads
the stored token) runs exactly once per request() call, before the first
attempt, and every fetch attempt of the call — retries included — is
issued with the identical url and headers produced by that single
interceptor run, so a token changed mid-retry is not picked up. -/
theorem C10_interceptors_once_per_call (cfg : ApiConfig) (st : LocalStorage) (c : CacheMap)
    (now : Int) (endpoint : String) (opts : RequestOptions) (outcomes : List AttemptOutcome) :
    (request cfg st c now endpoint opts outcomes).interceptorRuns = 1 ∧
    (request cfg st c now endpoint opts outcomes).attemptLog =
      List.replicate (request cfg st c now endpoint opts outcomes).networkAttempts
        ((runRequestInterceptors st (resolveUrl cfg endpoint) (withDefaultHeaders opts)).1,
         (runRequestInterceptors st (resolveUrl cfg endpoint) (withDefaultHeaders opts)).2.headers) := by
  unfold request
  dsimp only
  split
  · exact ⟨rfl, rfl⟩
  · split
    · dsimp only
      obtain ⟨h1, _, _⟩ := makeRequest_spec
        (runRequestInterceptors st (resolveUrl cfg endpoint) (withDefaultHeaders opts)).1
        (runRequestInterceptors st (resolveUrl cfg endpoint) (withDefaultHeaders opts)).2.headers
        ((runRequestInterceptors st (resolveUrl cfg endpoint) (withDefaultHeaders opts)).2.retryAttempts.getD cfg.retryAttempts)
        ((runRequestInterceptors st (resolveUrl cfg endpoint) (withDefaultHeaders opts)).2.retryDelay.getD cfg.retryDelay)
        outcomes 1 st 0
      exact ⟨rfl, h1⟩
    · dsimp only
      obtain ⟨h1, _, _⟩ := makeRequest_spec
        (runRequestInterceptors st (resolveUrl cfg endpoint) (withDefaultHeaders opts)).1
        (runRequestInterceptors st (resolveUrl cfg endpoint) (withDefaultHeaders opts)).2.headers
        ((runRequestInterceptors st (resolveUrl cfg endpoint) (withDefaultHeaders opts)).2.retryAttempts.getD cfg.retryAttempts)
        ((runRequestInterceptors st (resolveUrl cfg endpoint) (withDefaultHeaders opts)).2.retryDelay.getD cfg.retryDelay)
        outcomes 1 st 0
      exact ⟨rfl, h1⟩
